import Mathlib

/-!
Verification development for the Sentinel-2 NDVI tile-server cloud function
(`cloud-functions/ee-tiles/main.py`).

The function is glue over the Earth Engine client library.  We embed:

  * a semantic image model (`Image`, `Band`) for the pixel-level meaning of
    the cloud-mask predicate `mask_s2_clouds` and of the NDVI band math
    (`normalizedDifference` / `rename`);
  * a syntactic pipeline model (`EECol`, `EEImg`, `Stage`) recording the
    chain of collection operations built on lines 83-88 of the source;
  * a handler model (`get_tiles`) over an environment `Env` that fixes the
    outcome (success, or an exception with a message) of each remote step,
    together with the process-wide lazy-initialization flag used by
    `_ensure_ee`.  The handler returns the HTTP response, the new flag, and
    the number of credential/session initializations it performed.
-/

namespace SalishProp

/-! ## Semantic image model

An image maps a pixel position and a band name to an optional rational
value; `none` is "no data" (a masked pixel).  A `Band` is a single-band
image.  These are the meanings of the Earth Engine image operations used by
the source: `select`, `neq`, `And`, `updateMask`, `normalizedDifference`,
`rename`. -/

def Band : Type := Nat → Option Rat

def Image : Type := Nat → String → Option Rat

def Image.select (img : Image) (band : String) : Band :=
  fun p => img p band

def Band.neq (b : Band) (v : Rat) : Band :=
  fun p => (b p).map (fun x => if x ≠ v then 1 else 0)

def Band.and (a b : Band) : Band :=
  fun p =>
    match a p, b p with
    | some x, some y => some (if x ≠ 0 ∧ y ≠ 0 then 1 else 0)
    | _, _ => none

def Image.updateMask (img : Image) (mask : Band) : Image :=
  fun p band =>
    match mask p with
    | some m => if m ≠ 0 then img p band else none
    | none => none

def Image.normalizedDifference (img : Image) (bands : List String) : Band :=
  fun p =>
    match bands with
    | [b1, b2] =>
      match img p b1, img p b2 with
      | some x, some y => if x + y = 0 then none else some ((x - y) / (x + y))
      | _, _ => none
    | _ => none

def Band.rename (b : Band) (name : String) : Image :=
  fun p band => if band = name then b p else none

/-- `mask_s2_clouds` from the source (lines 48-53): select the SCL band and
mask out pixels whose classification is 3, 8, 9 or 10. -/
def mask_s2_clouds (image : Image) : Image :=
  let scl := image.select "SCL"
  let mask := (((scl.neq 3).and (scl.neq 8)).and (scl.neq 9)).and (scl.neq 10)
  image.updateMask mask

/-- NDVI computation from line 91 of the source:
`s2.normalizedDifference(['B8', 'B4']).rename('NDVI')`. -/
def ndviOf (s2 : Image) : Image :=
  (s2.normalizedDifference ["B8", "B4"]).rename "NDVI"

/-! ## Syntactic pipeline model

The collection pipeline built on lines 80-88 of the source, as an
expression tree, plus a stage-list reading of the tree. -/

structure Geometry where
  coords : List Rat
  deriving DecidableEq

/-- `ee.Geometry.Rectangle([-123.22, 48.40, -122.75, 48.77])`, the fixed
San Juan County bounding box (line 80). -/
def region : Geometry :=
  ⟨[(-123.22 : Rat), 48.40, -122.75, 48.77]⟩

inductive EEFilter
  | lt (prop : String) (value : Rat)
  deriving DecidableEq

/-- The functions the source passes to `ImageCollection.map`; here only the
cloud mask. -/
inductive MapFn
  | maskS2Clouds
  deriving DecidableEq

/-- Pixel-level meaning of a mapped function. -/
def MapFn.interp : MapFn → Image → Image
  | MapFn.maskS2Clouds => mask_s2_clouds

inductive EECol
  | imageCollection (id : String)
  | filterBounds (c : EECol) (g : Geometry)
  | filterDate (c : EECol) (s e : String)
  | filterF (c : EECol) (f : EEFilter)
  | mapF (c : EECol) (fn : MapFn)
  deriving DecidableEq

inductive EEImg
  | median (c : EECol)
  | normalizedDifference (i : EEImg) (bands : List String)
  | rename (i : EEImg) (name : String)
  deriving DecidableEq

/-- The composite expression built on lines 83-88 of the source. -/
def s2composite (start endD : String) : EEImg :=
  EEImg.median
    (EECol.mapF
      (EECol.filterF
        (EECol.filterDate
          (EECol.filterBounds
            (EECol.imageCollection "COPERNICUS/S2_SR_HARMONIZED")
            region)
          start endD)
        (EEFilter.lt "CLOUDY_PIXEL_PERCENTAGE" 30))
      MapFn.maskS2Clouds)

/-- The NDVI expression built on line 91 of the source. -/
def ndviExpr (start endD : String) : EEImg :=
  EEImg.rename (EEImg.normalizedDifference (s2composite start endD) ["B8", "B4"]) "NDVI"

/-- One stage of a collection pipeline, for reading an `EECol` back as an
ordered stage list. -/
inductive Stage
  | source (id : String)
  | spatialFilter (g : Geometry)
  | dateFilter (s e : String)
  | attrFilter (f : EEFilter)
  | maskMap (fn : MapFn)
  deriving DecidableEq

def EECol.stages : EECol → List Stage
  | EECol.imageCollection id => [Stage.source id]
  | EECol.filterBounds c g => c.stages ++ [Stage.spatialFilter g]
  | EECol.filterDate c s e => c.stages ++ [Stage.dateFilter s e]
  | EECol.filterF c f => c.stages ++ [Stage.attrFilter f]
  | EECol.mapF c fn => c.stages ++ [Stage.maskMap fn]

/-! ## Session initializer

`_ensure_ee` (lines 36-45).  The global flag `_ee_initialized` is passed
and returned explicitly.  The outcome the environment would give to an
initialization attempt (`google.auth.default` + `ee.Initialize`) is a
parameter; the returned `Nat` counts how many credential-resolution /
session-setup attempts the call performed (0 or 1). -/

def ensure_ee (flag : Bool) (outcome : Except String Unit) :
    Except String Unit × Bool × Nat :=
  if flag then (Except.ok (), flag, 0)
  else
    match outcome with
    | Except.ok _ => (Except.ok (), true, 1)
    | Except.error e => (Except.error e, flag, 1)

/-- Sequential calls to `_ensure_ee` within one process: thread the flag
through, summing the initialization attempts.  Each list element is the
outcome the environment would give if that call attempted initialization. -/
def runEnsure : Bool → List (Except String Unit) → Bool × Nat
  | flag, [] => (flag, 0)
  | flag, o :: os =>
    match ensure_ee flag o with
    | (_, flag', n) =>
      match runEnsure flag' os with
      | (flagF, m) => (flagF, n + m)

/-! ## Handler model -/

/-- The remote-touching steps of the handler's try block, in source
evaluation order (lines 77-95). -/
inductive Step
  | initEE
  | geomRect
  | imgCollection
  | fBounds
  | fDate
  | fCloud
  | mapMask
  | medianR
  | normDiff
  | renameB
  | mapIdFetch
  deriving DecidableEq

/-- Environment: for each step, `none` means the step succeeds and
`some e` means it raises an exception with message `e`; `tileUrl` is the
URL the map-id fetch yields when it succeeds. -/
structure Env where
  stepErr : Step → Option String
  tileUrl : String

/-- The steps after session initialization, in source order. -/
def chainSteps : List Step :=
  [Step.geomRect, Step.imgCollection, Step.fBounds, Step.fDate, Step.fCloud,
   Step.mapMask, Step.medianR, Step.normDiff, Step.renameB, Step.mapIdFetch]

/-- Run steps in order; the first raising step aborts with its message. -/
def runSteps (env : Env) : List Step → Except String Unit
  | [] => Except.ok ()
  | s :: rest =>
    match env.stepErr s with
    | some e => Except.error e
    | none => runSteps env rest

/-- The outcome an initialization attempt would have in `env`. -/
def initOutcome (env : Env) : Except String Unit :=
  match env.stepErr Step.initEE with
  | some e => Except.error e
  | none => Except.ok ()

/-- The steps that would actually execute given the current flag: a set
flag makes `_ensure_ee` return before touching credentials. -/
def effectiveSteps (flag : Bool) : List Step :=
  if flag then chainSteps else Step.initEE :: chainSteps

/-- The message of the first exception the chain would raise, if any. -/
def firstError (env : Env) (flag : Bool) : Option String :=
  ((effectiveSteps flag).filterMap env.stepErr).head?

/-- The body of the try block (lines 77-95): `_ensure_ee`, then the
collection/NDVI chain, then the map-id fetch.  Returns the tile URL or the
first raised message, the new flag, and the initialization-attempt count. -/
def runChain (env : Env) (flag : Bool) : Except String String × Bool × Nat :=
  match ensure_ee flag (initOutcome env) with
  | (Except.error e, flag', n) => (Except.error e, flag', n)
  | (Except.ok _, flag', n) =>
    match runSteps env chainSteps with
    | Except.error e => (Except.error e, flag', n)
    | Except.ok _ => (Except.ok env.tileUrl, flag', n)

structure Request where
  method : String
  args : String → Option String

inductive Body
  | empty
  | json (obj : List (String × String))
  deriving DecidableEq

structure Response where
  body : Body
  status : Nat
  headers : List (String × String)
  deriving DecidableEq

/-- Python truthiness test `not x` applied to `request.args.get(k)`:
`None` and the empty string are both falsy. -/
def falsy : Option String → Bool
  | none => true
  | some s => s = ""

def corsHeaders : List (String × String) :=
  [("Access-Control-Allow-Origin", "*")]

def preflightHeaders : List (String × String) :=
  [("Access-Control-Allow-Origin", "*"),
   ("Access-Control-Allow-Methods", "GET"),
   ("Access-Control-Allow-Headers", "Content-Type"),
   ("Access-Control-Max-Age", "3600")]

/-- The HTTP handler `get_tiles` (lines 57-100).  Returns the response, the
new value of the process-wide flag, and the number of initialization
attempts performed while handling this request. -/
def get_tiles (env : Env) (flag : Bool) (req : Request) :
    Response × Bool × Nat :=
  if req.method = "OPTIONS" then
    (⟨Body.empty, 204, preflightHeaders⟩, flag, 0)
  else if falsy (req.args "start") || falsy (req.args "end") then
    (⟨Body.json [("error", "Missing start/end parameters")], 400, corsHeaders⟩, flag, 0)
  else
    match runChain env flag with
    | (Except.ok url, flag', n) =>
      (⟨Body.json [("tileUrl", url)], 200, corsHeaders⟩, flag', n)
    | (Except.error e, flag', n) =>
      (⟨Body.json [("error", e)], 500, corsHeaders⟩, flag', n)

/-! ## Helper lemmas -/

theorem runSteps_of_head_error (env : Env) :
    ∀ (l : List Step) (e : String),
      (l.filterMap env.stepErr).head? = some e → runSteps env l = Except.error e := by
  intro l
  induction l with
  | nil => intro e h; simp [List.filterMap] at h
  | cons s rest ih =>
    intro e h
    cases hs : env.stepErr s with
    | some e0 =>
      rw [List.filterMap_cons_some hs] at h
      simp at h
      simp [runSteps, hs, h]
    | none =>
      rw [List.filterMap_cons_none hs] at h
      simp [runSteps, hs]
      exact ih e h

theorem runSteps_of_head_none (env : Env) :
    ∀ l : List Step,
      (l.filterMap env.stepErr).head? = none → runSteps env l = Except.ok () := by
  intro l
  induction l with
  | nil => intro _; rfl
  | cons s rest ih =>
    intro h
    cases hs : env.stepErr s with
    | some e0 => rw [List.filterMap_cons_some hs] at h; simp at h
    | none =>
      rw [List.filterMap_cons_none hs] at h
      simp [runSteps, hs]
      exact ih h

theorem runChain_fst_of_firstError (env : Env) (flag : Bool) (e : String)
    (h : firstError env flag = some e) :
    (runChain env flag).1 = Except.error e := by
  cases flag with
  | true =>
    have hs : runSteps env chainSteps = Except.error e := by
      apply runSteps_of_head_error
      simpa [firstError, effectiveSteps] using h
    simp [runChain, ensure_ee, hs]
  | false =>
    cases hi : env.stepErr Step.initEE with
    | some e0 =>
      have he : e0 = e := by
        have h' := h
        rw [firstError, effectiveSteps] at h'
        simp [List.filterMap_cons_some hi] at h'
        exact h'
      subst he
      simp [runChain, ensure_ee, initOutcome, hi]
    | none =>
      have hs : runSteps env chainSteps = Except.error e := by
        apply runSteps_of_head_error
        have h' := h
        rw [firstError, effectiveSteps] at h'
        simpa [List.filterMap_cons_none hi] using h'
      simp [runChain, ensure_ee, initOutcome, hi, hs]

theorem runChain_fst_of_noError (env : Env) (flag : Bool)
    (h : firstError env flag = none) :
    (runChain env flag).1 = Except.ok env.tileUrl := by
  cases flag with
  | true =>
    have hs : runSteps env chainSteps = Except.ok () := by
      apply runSteps_of_head_none
      simpa [firstError, effectiveSteps] using h
    simp [runChain, ensure_ee, hs]
  | false =>
    cases hi : env.stepErr Step.initEE with
    | some e0 =>
      rw [firstError, effectiveSteps] at h
      simp [List.filterMap_cons_some hi] at h
    | none =>
      have hs : runSteps env chainSteps = Except.ok () := by
        apply runSteps_of_head_none
        rw [firstError, effectiveSteps] at h
        simpa [List.filterMap_cons_none hi] using h
      simp [runChain, ensure_ee, initOutcome, hi, hs]

theorem runEnsure_of_flag_set : ∀ os : List (Except String Unit),
    runEnsure true os = (true, 0) := by
  intro os
  induction os with
  | nil => rfl
  | cons o os ih => simp [runEnsure, ensure_ee, ih]

/-! ## Claim theorems -/

/-- C1: for every non-OPTIONS request missing `start` or `end` (in Python
truthiness, absent or empty), the handler returns status 400 with body
`{error: "Missing start/end parameters"}` and the CORS header, the
initialization flag is untouched, no initialization attempt is made, and
the result does not depend on the remote environment at all (no remote
call is consulted). -/
theorem missing_params_returns_400 (env : Env) (flag : Bool) (req : Request)
    (hm : req.method ≠ "OPTIONS")
    (h : falsy (req.args "start") = true ∨ falsy (req.args "end") = true) :
    get_tiles env flag req =
      (⟨Body.json [("error", "Missing start/end parameters")], 400,
        [("Access-Control-Allow-Origin", "*")]⟩, flag, 0) := by
  rcases h with h | h <;> simp [get_tiles, corsHeaders, hm, h]

/-- Witness for C1: a GET request with no query parameters. -/
theorem missing_params_returns_400_witness :
    (Request.mk "GET" (fun _ => none)).method ≠ "OPTIONS" ∧
    get_tiles ⟨fun _ => none, "T"⟩ false (Request.mk "GET" (fun _ => none)) =
      (⟨Body.json [("error", "Missing start/end parameters")], 400,
        [("Access-Control-Allow-Origin", "*")]⟩, false, 0) :=
  ⟨by decide,
   missing_params_returns_400 ⟨fun _ => none, "T"⟩ false
     (Request.mk "GET" (fun _ => none)) (by decide) (Or.inl rfl)⟩

/-- C3: for every OPTIONS request, the handler returns status 204 with an
empty body and exactly the four CORS preflight headers, regardless of
query parameters, remote environment, or flag state, with no
initialization attempted. -/
theorem options_preflight_204 (env : Env) (flag : Bool) (req : Request)
    (hm : req.method = "OPTIONS") :
    get_tiles env flag req =
      (⟨Body.empty, 204,
        [("Access-Control-Allow-Origin", "*"),
         ("Access-Control-Allow-Methods", "GET"),
         ("Access-Control-Allow-Headers", "Content-Type"),
         ("Access-Control-Max-Age", "3600")]⟩, flag, 0) := by
  simp [get_tiles, preflightHeaders, hm]

/-- Witness for C3: an OPTIONS request with no parameters. -/
theorem options_preflight_204_witness :
    (Request.mk "OPTIONS" (fun _ => none)).method = "OPTIONS" ∧
    get_tiles ⟨fun _ => some "down", "T"⟩ false (Request.mk "OPTIONS" (fun _ => none)) =
      (⟨Body.empty, 204,
        [("Access-Control-Allow-Origin", "*"),
         ("Access-Control-Allow-Methods", "GET"),
         ("Access-Control-Allow-Headers", "Content-Type"),
         ("Access-Control-Max-Age", "3600")]⟩, false, 0) :=
  ⟨rfl,
   options_preflight_204 ⟨fun _ => some "down", "T"⟩ false
     (Request.mk "OPTIONS" (fun _ => none)) rfl⟩

/-- C9: a present-but-empty `start` or `end` parameter is treated exactly
like a missing one: the handler returns the same 400 response. -/
theorem empty_param_treated_as_missing (env : Env) (flag : Bool) (req : Request)
    (hm : req.method ≠ "OPTIONS")
    (h : req.args "start" = some "" ∨ req.args "end" = some "") :
    get_tiles env flag req =
      (⟨Body.json [("error", "Missing start/end parameters")], 400,
        [("Access-Control-Allow-Origin", "*")]⟩, flag, 0) := by
  rcases h with h | h <;> simp [get_tiles, corsHeaders, falsy, hm, h]

/-- Witness for C9: a GET request whose `start` is the empty string. -/
theorem empty_param_treated_as_missing_witness :
    (Request.mk "GET" (fun k => if k = "start" then some "" else some "2024-08-31")).method
        ≠ "OPTIONS" ∧
    get_tiles ⟨fun _ => none, "T"⟩ false
        (Request.mk "GET" (fun k => if k = "start" then some "" else some "2024-08-31")) =
      (⟨Body.json [("error", "Missing start/end parameters")], 400,
        [("Access-Control-Allow-Origin", "*")]⟩, false, 0) :=
  ⟨by decide,
   empty_param_treated_as_missing ⟨fun _ => none, "T"⟩ false
     (Request.mk "GET" (fun k => if k = "start" then some "" else some "2024-08-31"))
     (by decide) (Or.inl (by simp))⟩

/-- C2: for every non-OPTIONS request with both parameters present, if any
step of the processing chain raises (session initialization, any collection
operation, masking, median, normalized difference, or map-id fetch), the
handler returns status 500 with the raised message, unmodified, as the
`error` field, with the CORS header.  The handler is a total function, so
no exception escapes it. -/
theorem chain_error_returns_500 (env : Env) (flag : Bool) (req : Request) (e : String)
    (hm : req.method ≠ "OPTIONS")
    (hs : falsy (req.args "start") = false)
    (he : falsy (req.args "end") = false)
    (hf : firstError env flag = some e) :
    (get_tiles env flag req).1 =
      ⟨Body.json [("error", e)], 500, [("Access-Control-Allow-Origin", "*")]⟩ := by
  have hr := runChain_fst_of_firstError env flag e hf
  rcases hrc : runChain env flag with ⟨r, flag', n⟩
  rw [hrc] at hr
  simp at hr
  subst hr
  simp [get_tiles, corsHeaders, hm, hs, he, hrc]

/-- Witness for C2: the date filter raises with message "boom". -/
theorem chain_error_returns_500_witness :
    firstError ⟨fun s => if s = Step.fDate then some "boom" else none, "T"⟩ false
        = some "boom" ∧
    (get_tiles ⟨fun s => if s = Step.fDate then some "boom" else none, "T"⟩ false
        (Request.mk "GET"
          (fun k => if k = "start" then some "2024-06-01" else some "2024-08-31"))).1 =
      ⟨Body.json [("error", "boom")], 500, [("Access-Control-Allow-Origin", "*")]⟩ :=
  ⟨rfl,
   chain_error_returns_500
     ⟨fun s => if s = Step.fDate then some "boom" else none, "T"⟩ false
     (Request.mk "GET"
       (fun k => if k = "start" then some "2024-06-01" else some "2024-08-31"))
     "boom" (by decide) rfl rfl rfl⟩

/-- C4: the composite is the median reduction of a pipeline whose stages
are, in order: the fixed source collection, the spatial filter to the
fixed rectangle, the date filter over the request's range, the
cloudy-pixel-percentage strict upper bound of 30, and the per-image cloud
mask (whose pixel-level meaning is `mask_s2_clouds`). -/
theorem composite_stage_order (start endD : String) :
    ∃ col : EECol, s2composite start endD = EEImg.median col ∧
      col.stages =
        [Stage.source "COPERNICUS/S2_SR_HARMONIZED",
         Stage.spatialFilter region,
         Stage.dateFilter start endD,
         Stage.attrFilter (EEFilter.lt "CLOUDY_PIXEL_PERCENTAGE" 30),
         Stage.maskMap MapFn.maskS2Clouds] ∧
      MapFn.interp MapFn.maskS2Clouds = mask_s2_clouds :=
  ⟨_, rfl, rfl, rfl⟩

/-- C5: for any image and pixel whose SCL band holds value `v`, the masked
image is no-data in every band exactly when `v` is one of 3, 8, 9, 10, and
otherwise every band keeps its original value. -/
theorem mask_s2_clouds_scl_codes (image : Image) (p : Nat) (v : Rat) (band : String)
    (h : image p "SCL" = some v) :
    mask_s2_clouds image p band =
      (if v = 3 ∨ v = 8 ∨ v = 9 ∨ v = 10 then none else image p band) := by
  by_cases h3 : v = 3 <;> by_cases h8 : v = 8 <;> by_cases h9 : v = 9 <;>
    by_cases h10 : v = 10 <;>
    simp [mask_s2_clouds, Image.updateMask, Band.and, Band.neq, Image.select,
      h, h3, h8, h9, h10]

/-- Witness for C5: a pixel with SCL code 9 (high-confidence cloud) is
masked out. -/
theorem mask_s2_clouds_scl_codes_witness :
    (fun _ b => if b = "SCL" then some (9 : Rat) else some (1/2) : Image) 0 "SCL"
        = some 9 ∧
    mask_s2_clouds (fun _ b => if b = "SCL" then some (9 : Rat) else some (1/2)) 0 "B8" =
      (if (9 : Rat) = 3 ∨ (9 : Rat) = 8 ∨ (9 : Rat) = 9 ∨ (9 : Rat) = 10 then none
       else (fun _ b => if b = "SCL" then some (9 : Rat) else some (1/2) : Image) 0 "B8") :=
  ⟨rfl,
   mask_s2_clouds_scl_codes
     (fun _ b => if b = "SCL" then some (9 : Rat) else some (1/2)) 0 9 "B8" rfl⟩

/-- C6: the index image holds, in the single band "NDVI", the normalized
difference of the B8 (near-infrared) and B4 (red) values of the composite,
and holds no data in any other band. -/
theorem ndvi_band_math (s2 : Image) (p : Nat) (nir red : Rat)
    (h8 : s2 p "B8" = some nir) (h4 : s2 p "B4" = some red)
    (hz : nir + red ≠ 0) :
    ndviOf s2 p "NDVI" = some ((nir - red) / (nir + red)) ∧
    ∀ band, band ≠ "NDVI" → ndviOf s2 p band = none := by
  constructor
  · simp [ndviOf, Band.rename, Image.normalizedDifference, h8, h4, hz]
  · intro band hb
    simp [ndviOf, Band.rename, hb]

/-- Witness for C6: B8 = 3, B4 = 1 gives NDVI = 1/2. -/
theorem ndvi_band_math_witness :
    (fun _ b => if b = "B8" then some (3 : Rat) else
        if b = "B4" then some 1 else none : Image) 0 "B8" = some 3 ∧
    (fun _ b => if b = "B8" then some (3 : Rat) else
        if b = "B4" then some 1 else none : Image) 0 "B4" = some 1 ∧
    (3 : Rat) + 1 ≠ 0 ∧
    ndviOf (fun _ b => if b = "B8" then some (3 : Rat) else
        if b = "B4" then some 1 else none) 0 "NDVI" = some ((3 - 1) / (3 + 1)) :=
  ⟨rfl, rfl, by norm_num,
   (ndvi_band_math
     (fun _ b => if b = "B8" then some (3 : Rat) else
        if b = "B4" then some 1 else none) 0 3 1 rfl rfl (by norm_num)).1⟩

/-- C7: the initializer is idempotent: with the flag set it is a no-op for
any environment outcome (zero initialization attempts), and in a fresh
process whose first call succeeds, any number of subsequent calls performs
exactly one initialization in total. -/
theorem ensure_ee_idempotent :
    (∀ outcome : Except String Unit,
      ensure_ee true outcome = (Except.ok (), true, 0)) ∧
    (∀ os : List (Except String Unit),
      runEnsure false (Except.ok () :: os) = (true, 1)) := by
  refine ⟨fun outcome => rfl, fun os => ?_⟩
  simp [runEnsure, ensure_ee, runEnsure_of_flag_set]

/-- C8: every response to a non-OPTIONS request carries exactly the single
CORS header, and its body is a one-field JSON object: `tileUrl` with
status 200, or `error` with status 400 or 500. -/
theorem nonpreflight_cors_and_body_shape (env : Env) (flag : Bool) (req : Request)
    (hm : req.method ≠ "OPTIONS") :
    (get_tiles env flag req).1.headers = [("Access-Control-Allow-Origin", "*")] ∧
    ((∃ u, (get_tiles env flag req).1.body = Body.json [("tileUrl", u)] ∧
        (get_tiles env flag req).1.status = 200) ∨
     (∃ m, (get_tiles env flag req).1.body = Body.json [("error", m)] ∧
        ((get_tiles env flag req).1.status = 400 ∨
         (get_tiles env flag req).1.status = 500))) := by
  cases hv : falsy (req.args "start") || falsy (req.args "end") with
  | true =>
    have hg : get_tiles env flag req =
        (⟨Body.json [("error", "Missing start/end parameters")], 400, corsHeaders⟩,
         flag, 0) := by
      simp [get_tiles, hm, hv]
    rw [hg]
    exact ⟨rfl, Or.inr ⟨"Missing start/end parameters", rfl, Or.inl rfl⟩⟩
  | false =>
    rcases hrc : runChain env flag with ⟨r, flag', n⟩
    cases r with
    | ok url =>
      have hg : get_tiles env flag req =
          (⟨Body.json [("tileUrl", url)], 200, corsHeaders⟩, flag', n) := by
        simp [get_tiles, hm, hv, hrc]
      rw [hg]
      exact ⟨rfl, Or.inl ⟨url, rfl, rfl⟩⟩
    | error e =>
      have hg : get_tiles env flag req =
          (⟨Body.json [("error", e)], 500, corsHeaders⟩, flag', n) := by
        simp [get_tiles, hm, hv, hrc]
      rw [hg]
      exact ⟨rfl, Or.inr ⟨e, rfl, Or.inr rfl⟩⟩

/-- Witness for C8: a successful GET request. -/
theorem nonpreflight_cors_and_body_shape_witness :
    (Request.mk "GET"
        (fun k => if k = "start" then some "2024-06-01" else some "2024-08-31")).method
      ≠ "OPTIONS" ∧
    ((get_tiles ⟨fun _ => none, "T"⟩ false
        (Request.mk "GET"
          (fun k => if k = "start" then some "2024-06-01" else some "2024-08-31"))).1.headers
      = [("Access-Control-Allow-Origin", "*")] ∧
     ((∃ u, (get_tiles ⟨fun _ => none, "T"⟩ false
        (Request.mk "GET"
          (fun k => if k = "start" then some "2024-06-01" else some "2024-08-31"))).1.body
          = Body.json [("tileUrl", u)] ∧
        (get_tiles ⟨fun _ => none, "T"⟩ false
        (Request.mk "GET"
          (fun k => if k = "start" then some "2024-06-01" else some "2024-08-31"))).1.status
          = 200) ∨
      (∃ m, (get_tiles ⟨fun _ => none, "T"⟩ false
        (Request.mk "GET"
          (fun k => if k = "start" then some "2024-06-01" else some "2024-08-31"))).1.body
          = Body.json [("error", m)] ∧
        ((get_tiles ⟨fun _ => none, "T"⟩ false
        (Request.mk "GET"
          (fun k => if k = "start" then some "2024-06-01" else some "2024-08-31"))).1.status
          = 400 ∨
         (get_tiles ⟨fun _ => none, "T"⟩ false
        (Request.mk "GET"
          (fun k => if k = "start" then some "2024-06-01" else some "2024-08-31"))).1.status
          = 500)))) :=
  ⟨by decide,
   nonpreflight_cors_and_body_shape ⟨fun _ => none, "T"⟩ false
     (Request.mk "GET"
       (fun k => if k = "start" then some "2024-06-01" else some "2024-08-31"))
     (by decide)⟩

/-- C10: if the initialization attempt raises, the flag stays unset and
the error propagates; the process then behaves on subsequent calls exactly
as a fresh process would, attempting full initialization again. -/
theorem init_failure_leaves_flag_unset (e : String) (os : List (Except String Unit)) :
    ensure_ee false (Except.error e) = (Except.error e, false, 1) ∧
    runEnsure false (Except.error e :: os) =
      ((runEnsure false os).1, 1 + (runEnsure false os).2) := by
  refine ⟨rfl, ?_⟩
  rcases hr : runEnsure false os with ⟨f, m⟩
  simp [runEnsure, ensure_ee, hr]

end SalishProp
